import Mathlib

/-!
Verification of the DID Resolution Protocol v0.9 plugin
(`didcomm_uniresolver/v0_9/__init__.py`).

The Python module defines three message classes sharing one protocol
identifier (`DIDResolutionMessage.protocol`), a responder-side handler
(`ResolveDID.handle` / `ResolveDID.resolve_did`), a requester-side result
handler (`ResolveDIDResult.Handler.do_handle`), a problem-report translator
(`ResolveDIDProblemReport.Handler.map_exception`) and a dispatch table
(`MESSAGE_TYPES`).  Each definition below is a shallow embedding of the
corresponding Python function; external collaborators (the HTTP stack,
`json.loads` on strings, clocks) are passed in as explicit arguments.
-/

/-- A JSON value, as returned by `response.json()` / `json.loads`. -/
inductive Json where
  | null : Json
  | bool (b : Bool) : Json
  | num (n : Int) : Json
  | str (s : String) : Json
  | arr (xs : List Json) : Json
  | obj (kvs : List (String × Json)) : Json

/-- Python exceptions that the embedded code can raise. -/
inductive PyErr where
  /-- `TypeError`, e.g. `json.loads` applied to a `dict`. -/
  | typeError
  /-- `ValueError` / `json.JSONDecodeError`, e.g. `json.loads` on a bad string. -/
  | valueError
  /-- `KeyError(k)` from a `d[k]` lookup with `k` absent. -/
  | keyError (k : String)
  /-- `aries_cloudagent` `HandlerException(msg)`. -/
  | handlerException (msg : String)
  /-- An `aiohttp` network-level failure (connection error, timeout, ...). -/
  | networkError
deriving DecidableEq, Repr

/-- Look up a key in an association list, as Python dict lookup does. -/
def lookupKey (kvs : List (String × Json)) (k : String) : Option Json :=
  (kvs.find? (fun p => p.1 == k)).map Prod.snd

/-- Python `content[k]`: the member when present, `KeyError` otherwise,
`TypeError` when `content` is not a dict. -/
def getItem (content : Json) (k : String) : Except PyErr Json :=
  match content with
  | Json.obj kvs =>
    match lookupKey kvs k with
    | some v => Except.ok v
    | none => Except.error (PyErr.keyError k)
  | _ => Except.error PyErr.typeError

/-- When `pat` is a leading run of `s`, the remainder of `s` after it. -/
def dropPat : List Char → List Char → Option (List Char)
  | [], s => some s
  | _ :: _, [] => none
  | p :: ps, c :: cs => if p = c then dropPat ps cs else none

/-- Replace every occurrence of `pat` in `s` by `repl`, scanning left to
right; `fuel` bounds the recursion and is chosen large enough below. -/
def replaceFuel : Nat → List Char → List Char → List Char → List Char
  | 0, _, _, s => s
  | _ + 1, _, _, [] => []
  | fuel + 1, pat, repl, c :: cs =>
    match dropPat pat (c :: cs) with
    | some rest => repl ++ replaceFuel fuel pat repl rest
    | none => c :: replaceFuel fuel pat repl cs

/-- Python `resolver_url.format(did=did)`: substitute the DID for every
occurrence of the placeholder `\x7bdid\x7d` in the template. -/
def pyFormatDid (template did : String) : String :=
  String.mk (replaceFuel (template.data.length + 1)
    ("\x7bdid\x7d".data) did.data template.data)

/-- The message of the `HandlerException` raised by `ResolveDID.resolve_did`
on a bad status.  In the source only the first line is an f-string; the
second line is a plain string literal, so the text `\x7bresponse.status\x7d`
is kept verbatim and the numeric status is never interpolated. -/
def statusErrMsg (did url : String) : String :=
  "Failed to resolve DID " ++ did ++ " using URL " ++ url ++ " with status "
    ++ "\x7bresponse.status\x7d"

/-- An HTTP response as seen by `resolve_did`: its status code and the
outcome of `await response.json()` (which fails on a malformed body). -/
structure HttpResponse where
  status : Nat
  body : Except PyErr Json

/-- `ResolveDID.resolve_did(did, resolver_url)`: format the URL, issue the
GET (the network is the collaborator `http`, which may itself fail), and on
a 2xx/3xx status return the `didDocument` member of the JSON body; on any
other status raise a `HandlerException`. -/
def ResolveDID.resolve_did (did resolver_url : String)
    (http : String → Except PyErr HttpResponse) : Except PyErr Json :=
  let url := pyFormatDid resolver_url did
  match http url with
  | Except.error e => Except.error e
  | Except.ok response =>
    if 200 ≤ response.status ∧ response.status < 400 then
      match response.body with
      | Except.error e => Except.error e
      | Except.ok content => getItem content "didDocument"
    else
      Except.error (PyErr.handlerException (statusErrMsg did url))

example :
    ResolveDID.resolve_did "did:ex:1" "http://r/\x7bdid\x7d"
      (fun _ => Except.ok ⟨200, Except.ok (Json.obj [("didDocument", Json.null)])⟩)
      = Except.ok Json.null := rfl

example :
    ResolveDID.resolve_did "did:ex:1" "http://r/\x7bdid\x7d"
      (fun _ => Except.ok ⟨500, Except.ok Json.null⟩)
      = Except.error (PyErr.handlerException
          ("Failed to resolve DID did:ex:1 using URL http://r/did:ex:1 with status \x7bresponse.status\x7d")) := rfl

/-- An inbound `ResolveDID` message as `handle` sees it: its `@id`, its
thread decorator (if threaded), the DID to resolve, and its `l10n`
decorator when present in `_decorators`. -/
structure ResolveDIDMsg where
  id : String
  thread : Option String
  did : String
  l10n : Option Json

/-- A constructed `ResolveDIDResult` reply: the document, the thread id
assigned by `assign_thread_from`, and the copied `l10n` decorator. -/
structure ResolveDIDResultMsg where
  did_document : Json
  thid : String
  l10n : Option Json

/-- A message given to `responder.send_reply`: either a `ResolveDIDResult`
or (never produced by this code, but demanded by the spec) a
`ResolveDIDProblemReport` with an explanation, correlated by thread id. -/
inductive SentReply where
  | result (r : ResolveDIDResultMsg)
  | problemReport (explain : String) (thid : String)

/-- `AgentMessage.assign_thread_from`: the reply's thread id is the inbound
message's thread id when threaded, else the inbound message's `@id`. -/
def assign_thread_from (msg : ResolveDIDMsg) : String :=
  match msg.thread with
  | some t => t
  | none => msg.id

/-- `ResolveDID.handle(context, responder)`: call `resolve_did`; on any
exception raise a `HandlerException` naming the DID and the resolver URL
(sending nothing); on success build a `ResolveDIDResult`, assign its thread
from the inbound message, copy the `l10n` decorator when present, and send
it as the single reply.  The return value is the list of replies passed to
`responder.send_reply`, paired with the exception raised, if any. -/
def ResolveDID.handle (msg : ResolveDIDMsg) (resolver_url : String)
    (http : String → Except PyErr HttpResponse) :
    List SentReply × Option PyErr :=
  match ResolveDID.resolve_did msg.did resolver_url http with
  | Except.error _ =>
    ([], some (PyErr.handlerException
      ("Could not resolve DID " ++ msg.did ++ " using service " ++ resolver_url)))
  | Except.ok did_document =>
    ([SentReply.result
        { did_document := did_document
          thid := assign_thread_from msg
          l10n := msg.l10n }], none)

/-- The Python value stored in `ResolveDIDResult.did_document`: the schema
declares a dict, but the wire value may have been left a JSON-encoded
string by the sender. -/
inductive PyVal where
  | pyStr (s : String) : PyVal
  | pyDict (kvs : List (String × Json)) : PyVal

/-- Python `json.loads`: on a string, parse it with the JSON decoder
(`loads`, the collaborator, which may fail with `ValueError`); on a dict,
raise `TypeError` — `json.loads` accepts only `str`/`bytes`/`bytearray`. -/
def json_loads (loads : String → Except PyErr Json) : PyVal → Except PyErr Json
  | PyVal.pyStr s => loads s
  | PyVal.pyDict _ => Except.error PyErr.typeError

/-- The requester-side context of `ResolveDIDResult.Handler.do_handle`:
`context.connection_record.connection_id`, `context.message._id` and
`context.message.did_document`. -/
structure ResultContext where
  connection_id : String
  message_id : String
  did_document : PyVal

/-- One `responder.send_webhook(topic, payload)` call with the payload
built by `do_handle`. -/
structure Webhook where
  topic : String
  connection_id : String
  message_id : String
  did_document : Json
  state : String

/-- `ResolveDIDResult.Handler.do_handle(context, responder)`: run
`json.loads` on `did_document` (raising before any webhook when it fails),
then emit exactly one `resolve_did_result` webhook carrying the parsed
document and the message metadata. -/
def ResolveDIDResult.do_handle (loads : String → Except PyErr Json)
    (ctx : ResultContext) : Except PyErr (List Webhook) :=
  match json_loads loads ctx.did_document with
  | Except.error e => Except.error e
  | Except.ok did_document =>
    Except.ok [{ topic := "resolve_did_result"
                 connection_id := ctx.connection_id
                 message_id := ctx.message_id
                 did_document := did_document
                 state := "received" }]

/-- Modelled from the spec: the `AwaitableHandler` base class (in
`didcomm_uniresolver/acapy_tools/awaitable_handler.py`, which is not under
`src/`) runs `do_handle` and separately completes any pending waiter for
the correlation id; per the spec the notification is emitted by `do_handle`
"unconditionally, independent of whether a waiter existed", so the waiter
flag is threaded through untouched. -/
def ResolveDIDResult.handle_with_waiter (loads : String → Except PyErr Json)
    (ctx : ResultContext) (waiterExisted : Bool) :
    Except PyErr (List Webhook) × Bool :=
  (ResolveDIDResult.do_handle loads ctx, waiterExisted)

/-- The typed errors of the requester side (spec §7 taxonomy restricted to
what the code and the modelled bridge can produce). -/
inductive ResolverError where
  /-- `aries_cloudagent.resolver.base.DIDNotFound` with its message. -/
  | didNotFound (msg : String)
  /-- The generic remote-resolution-failure kind the spec demands. -/
  | resolutionFailed (msg : String)
  /-- The timeout error of the bridge. -/
  | requestTimeout
deriving DecidableEq, Repr

/-- Whether an error is the specific not-found kind. -/
def ResolverError.isNotFoundKind : ResolverError → Bool
  | ResolverError.didNotFound _ => true
  | _ => false

/-- Whether an error is the generic remote-resolution-failure kind. -/
def ResolverError.isResolutionFailedKind : ResolverError → Bool
  | ResolverError.resolutionFailed _ => true
  | _ => false

/-- The message text carried by an error. -/
def ResolverError.message : ResolverError → String
  | ResolverError.didNotFound m => m
  | ResolverError.resolutionFailed m => m
  | ResolverError.requestTimeout => "request timed out"

/-- A received `ResolveDIDProblemReport` as `map_exception` sees it. -/
structure ProblemReportMsg where
  explain_ltxt : String

/-- `ResolveDIDProblemReport.Handler.map_exception(message)`: build a
`DIDNotFound` whose message is the fixed prefix followed by the report's
explanation — for every report, whatever its explanation. -/
def ResolveDIDProblemReport.map_exception (message : ProblemReportMsg) :
    ResolverError :=
  ResolverError.didNotFound
    ("DID not found on remote resolver: " ++ message.explain_ltxt)

/-- The three message kinds of the protocol module. -/
inductive MessageKind where
  | resolve
  | resolve_result
  | problem_report
deriving DecidableEq, Repr

/-- `DIDResolutionMessage.protocol`, the shared protocol identifier. -/
def DIDResolutionMessage.protocol : String :=
  "https://didcomm.org/did_resolution/0.9"

/-- The `message_type` class attribute of each message class. -/
def MessageKind.message_type : MessageKind → String
  | MessageKind.resolve => "resolve"
  | MessageKind.resolve_result => "resolve_result"
  | MessageKind.problem_report => "problem-report"

/-- The class name of each message class. -/
def MessageKind.class_name : MessageKind → String
  | MessageKind.resolve => "ResolveDID"
  | MessageKind.resolve_result => "ResolveDIDResult"
  | MessageKind.problem_report => "ResolveDIDProblemReport"

/-- Each message class subclasses `DIDResolutionMessage` and none overrides
its `protocol` attribute, so attribute lookup yields the base value. -/
def MessageKind.protocol : MessageKind → String :=
  fun _ => DIDResolutionMessage.protocol

/-- `MESSAGE_TYPES`: the dispatch dict comprehension ranges over the list
`[ResolveDID, ResolveDIDResult]` only, mapping each class's message type to
its qualified class path. -/
def MESSAGE_TYPES : List (String × String) :=
  [MessageKind.resolve, MessageKind.resolve_result].map
    (fun k => (k.message_type, "didcomm_uniresolver.v0_9." ++ k.class_name))

/-- A `datetime.datetime` value as the constructors receive or create it. -/
structure PyDatetime where
  year : Nat
  month : Nat
  day : Nat
  hour : Nat
  minute : Nat
  second : Nat
deriving DecidableEq, Repr

/-- The string form of a datetime (`aries_cloudagent`'s `datetime_to_str`
renders a datetime as an ISO-8601 timestamp with a trailing Z). -/
def PyDatetime.isoStr (d : PyDatetime) : String :=
  toString d.year ++ "-" ++ toString d.month ++ "-" ++ toString d.day ++ " "
    ++ toString d.hour ++ ":" ++ toString d.minute ++ ":" ++ toString d.second
    ++ "Z"

/-- The `sent_time` argument of the constructors: `None`, a string, or a
`datetime` (`Union[str, datetime] = None`). -/
inductive SentTimeArg where
  | noneArg
  | strArg (s : String)
  | dtArg (d : PyDatetime)
deriving DecidableEq, Repr

/-- Python truthiness of the `sent_time` argument: `None` and the empty
string are falsy; a datetime object is always truthy. -/
def sentTimeFalsy : SentTimeArg → Bool
  | SentTimeArg.noneArg => true
  | SentTimeArg.strArg s => s == ""
  | SentTimeArg.dtArg _ => false

/-- `aries_cloudagent`'s `datetime_to_str`: converts a datetime to its
string form and returns a string unchanged. -/
def datetime_to_str : SentTimeArg → SentTimeArg
  | SentTimeArg.dtArg d => SentTimeArg.strArg d.isoStr
  | a => a

/-- The `sent_time` logic of `ResolveDID.__init__`: `if not sent_time:
sent_time = datetime_now()` followed by `self.sent_time =
datetime_to_str(sent_time)`; `now` is the clock collaborator
(`datetime_now`). -/
def ResolveDID.init_sent_time (now : PyDatetime) (sent_time : SentTimeArg) :
    SentTimeArg :=
  let sent_time := if sentTimeFalsy sent_time then SentTimeArg.dtArg now
                   else sent_time
  datetime_to_str sent_time

/-- The `sent_time` logic of `ResolveDIDResult.__init__`, textually
identical to the `ResolveDID` one. -/
def ResolveDIDResult.init_sent_time (now : PyDatetime)
    (sent_time : SentTimeArg) : SentTimeArg :=
  let sent_time := if sentTimeFalsy sent_time then SentTimeArg.dtArg now
                   else sent_time
  datetime_to_str sent_time

/-- The stored `self.sent_time` as a string, with the empty string standing
for the impossible non-string outcome. -/
def SentTimeArg.asStr : SentTimeArg → String
  | SentTimeArg.strArg s => s
  | _ => ""

/-- Modelled from the spec: a reply correlated by thread id, tagged with
its arrival time, delivered to the requester (`AwaitableHandler` machinery
in `didcomm_uniresolver/acapy_tools/awaitable_handler.py`, not under
`src/`). -/
inductive ReplyKind where
  | result (doc : Json) : ReplyKind
  | problem (explainText : String) : ReplyKind

/-- Modelled from the spec: a timed correlated reply. -/
structure TimedReply where
  cid : String
  arriveAt : Nat
  kind : ReplyKind

/-- Modelled from the spec: the `PendingRequestTable`, a map from
correlation id to the entry's deadline. -/
def PendingTable := List (String × Nat)

/-- Modelled from the spec: `register(correlationId, deadline)` adds a
pending entry. -/
def registerEntry (table : PendingTable) (cid : String) (deadline : Nat) :
    PendingTable :=
  (cid, deadline) :: table

/-- Modelled from the spec: eviction of the entry for `cid`; `await`
"always removes the entry from the table before returning". -/
def removeEntry (table : PendingTable) (cid : String) : PendingTable :=
  table.filter (fun e => e.1 != cid)

/-- Modelled from the spec: the first reply correlated to `cid` arriving
strictly before the deadline, if any. -/
def firstReplyBefore (replies : List TimedReply) (cid : String)
    (deadline : Nat) : Option TimedReply :=
  replies.find? (fun r => r.cid == cid && decide (r.arriveAt < deadline))

/-- Modelled from the spec: the outcome a correlated reply produces —
`Resolved(doc)` for a result, `Failed(translated error)` for a problem
report (translated by the code's `map_exception`). -/
def outcomeOfReply : ReplyKind → Except ResolverError Json
  | ReplyKind.result doc => Except.ok doc
  | ReplyKind.problem e =>
    Except.error (ResolveDIDProblemReport.map_exception ⟨e⟩)

/-- Modelled from the spec: `await(handle)` — wake with the first
correlated reply before the deadline or with `RequestTimeout` at the
deadline, and remove the entry from the table before returning. -/
def awaitEntry (table : PendingTable) (cid : String) (deadline : Nat)
    (replies : List TimedReply) :
    Except ResolverError Json × PendingTable :=
  (match firstReplyBefore replies cid deadline with
   | some r => outcomeOfReply r.kind
   | none => Except.error ResolverError.requestTimeout,
   removeEntry table cid)

/-- Modelled from the spec: `resolveDID(did, resolverEndpoint, timeout)` on
the requester side — register a pending entry with deadline
`now + timeout`, dispatch, then await. -/
def resolveDIDCall (table : PendingTable) (cid : String) (now timeout : Nat)
    (replies : List TimedReply) :
    Except ResolverError Json × PendingTable :=
  awaitEntry (registerEntry table cid (now + timeout)) cid (now + timeout)
    replies

/-- Table lookup for a correlation id. -/
def tableLookup (table : PendingTable) (cid : String) : Option Nat :=
  (table.find? (fun e => e.1 == cid)).map Prod.snd

/-- Shared helper: a nonempty string has positive length. -/
lemma length_pos_of_ne_empty (s : String) (h : s ≠ "") : 0 < s.length := by
  rcases s with ⟨data⟩
  cases data with
  | nil => exact absurd rfl h
  | cons c cs => simp [String.length]

/-- Shared helper: the rendered datetime string is nonempty. -/
lemma isoStr_length_pos (d : PyDatetime) : 0 < d.isoStr.length := by
  have h1 : (0 : Nat) < ("Z" : String).length := by decide
  simp only [PyDatetime.isoStr, String.length_append]
  omega

/-- Claim C1 counterexample: when the collaborator call fails (here a
network error), `ResolveDID.handle` sends no reply at all — in particular
no `ProblemReport` — and instead raises a `HandlerException`, so the
failure does escape the handler as a raised error. -/
theorem handle_failure_counterexample :
    ResolveDID.handle ⟨"msg-1", none, "did:example:123", none⟩
        "http://resolver/\x7bdid\x7d" (fun _ => Except.error PyErr.networkError)
      = ([], some (PyErr.handlerException
          "Could not resolve DID did:example:123 using service http://resolver/\x7bdid\x7d")) := rfl

/-- Claim C1 (amended): for every inbound `ResolveDID` message, if the
resolution collaborator call (`ResolveDID.resolve_did`) fails for any
reason, the handler `ResolveDID.handle` sends no reply and raises a
`HandlerException` whose message names the DID and the resolver URL — the
failure escapes the handler as a raised error rather than as a
`ProblemReport` reply. -/
theorem handle_failure_raises (msg : ResolveDIDMsg) (resolver_url : String)
    (http : String → Except PyErr HttpResponse) (e : PyErr)
    (h : ResolveDID.resolve_did msg.did resolver_url http = Except.error e) :
    ResolveDID.handle msg resolver_url http
      = ([], some (PyErr.handlerException
          ("Could not resolve DID " ++ msg.did ++ " using service "
            ++ resolver_url))) := by
  unfold ResolveDID.handle
  rw [h]

/-- Witness for C1: a concrete failing call where the handler raises and
sends nothing. -/
theorem handle_failure_raises_witness :
    ResolveDID.handle ⟨"m1", none, "did:sov:abc", none⟩ "http://u/\x7bdid\x7d"
        (fun _ => Except.error PyErr.networkError)
      = ([], some (PyErr.handlerException
          "Could not resolve DID did:sov:abc using service http://u/\x7bdid\x7d")) :=
  handle_failure_raises ⟨"m1", none, "did:sov:abc", none⟩ "http://u/\x7bdid\x7d"
    (fun _ => Except.error PyErr.networkError) PyErr.networkError rfl

/-- Claim C2 counterexample: the explanation `"connection refused"` does
not match the pattern `"DID not found on remote resolver: ..."`, yet
`map_exception` still yields the specific not-found kind, never the
generic remote-resolution-failure kind the claim requires. -/
theorem map_exception_counterexample :
    (ResolveDIDProblemReport.map_exception ⟨"connection refused"⟩).isResolutionFailedKind
        = false
    ∧ (ResolveDIDProblemReport.map_exception ⟨"connection refused"⟩).isNotFoundKind
        = true := ⟨rfl, rfl⟩

/-- Claim C2 (amended): for every received `ResolveDIDProblemReport`,
whatever its explanation, `map_exception` yields the specific not-found
error kind, never the generic remote-resolution-failure kind; the error's
message is the fixed prefix `"DID not found on remote resolver: "`
followed by the raw explanation text verbatim. -/
theorem map_exception_always_not_found (m : ProblemReportMsg) :
    (ResolveDIDProblemReport.map_exception m).isNotFoundKind = true
    ∧ (ResolveDIDProblemReport.map_exception m).isResolutionFailedKind = false
    ∧ (ResolveDIDProblemReport.map_exception m).message
        = "DID not found on remote resolver: " ++ m.explain_ltxt :=
  ⟨rfl, rfl, rfl⟩

/-- Claim C5: for every inbound `ResolveDID` message whose resolution
succeeds, `ResolveDID.handle` sends exactly one `ResolveDIDResult` reply,
raises nothing, assigns the reply's thread from the inbound message
(thread id when threaded, else the inbound `@id`), and copies the
inbound `l10n` decorator verbatim onto the reply. -/
theorem handle_success_replies (msg : ResolveDIDMsg) (resolver_url : String)
    (http : String → Except PyErr HttpResponse) (doc : Json)
    (h : ResolveDID.resolve_did msg.did resolver_url http = Except.ok doc) :
    ResolveDID.handle msg resolver_url http
      = ([SentReply.result
            { did_document := doc
              thid := assign_thread_from msg
              l10n := msg.l10n }], none) := by
  unfold ResolveDID.handle
  rw [h]

/-- Witness for C5: a concrete successful resolution producing one
correlated reply with the localization decorator copied. -/
theorem handle_success_replies_witness :
    ResolveDID.handle ⟨"m1", some "th-7", "did:ex:9", some (Json.str "loc")⟩
        "http://u/\x7bdid\x7d"
        (fun _ => Except.ok ⟨200, Except.ok (Json.obj [("didDocument", Json.obj [])])⟩)
      = ([SentReply.result ⟨Json.obj [], "th-7", some (Json.str "loc")⟩], none) :=
  handle_success_replies ⟨"m1", some "th-7", "did:ex:9", some (Json.str "loc")⟩
    "http://u/\x7bdid\x7d"
    (fun _ => Except.ok ⟨200, Except.ok (Json.obj [("didDocument", Json.obj [])])⟩)
    (Json.obj []) rfl

/-- Claim C6: for every DID and endpoint template, `resolve_did` requests
the URL obtained by substituting the DID into the placeholder; when the
response body is a JSON object holding a `didDocument` member, it returns
that member exactly when the HTTP status is at least 200 and below 400,
and for every other status it raises a `HandlerException` instead of
returning a document. -/
theorem resolve_did_status_gate (did template : String)
    (http : String → Except PyErr HttpResponse)
    (status : Nat) (kvs : List (String × Json)) (doc : Json)
    (hresp : http (pyFormatDid template did)
        = Except.ok ⟨status, Except.ok (Json.obj kvs)⟩)
    (hdoc : lookupKey kvs "didDocument" = some doc) :
    (ResolveDID.resolve_did did template http = Except.ok doc
      ↔ (200 ≤ status ∧ status < 400))
    ∧ ((status < 200 ∨ 400 ≤ status) →
        ResolveDID.resolve_did did template http
          = Except.error (PyErr.handlerException
              (statusErrMsg did (pyFormatDid template did)))) := by
  unfold ResolveDID.resolve_did
  simp only [hresp]
  by_cases hst : 200 ≤ status ∧ status < 400
  · constructor
    · simp [hst, getItem, hdoc]
    · intro hout
      omega
  · constructor
    · simp only [if_neg hst]
      constructor
      · intro h
        exact absurd h (by simp)
      · intro h
        exact absurd h hst
    · intro _
      simp [if_neg hst]

/-- Witness for C6: a concrete 200 response whose body holds a
`didDocument` member, returned as the call's result. -/
theorem resolve_did_status_gate_witness :
    (ResolveDID.resolve_did "did:ex:1" "http://r/\x7bdid\x7d"
        (fun _ => Except.ok ⟨200, Except.ok (Json.obj [("didDocument", Json.str "d")])⟩)
      = Except.ok (Json.str "d") ↔ (200 ≤ 200 ∧ 200 < 400))
    ∧ ((200 < 200 ∨ 400 ≤ 200) →
        ResolveDID.resolve_did "did:ex:1" "http://r/\x7bdid\x7d"
            (fun _ => Except.ok ⟨200, Except.ok (Json.obj [("didDocument", Json.str "d")])⟩)
          = Except.error (PyErr.handlerException
              (statusErrMsg "did:ex:1" (pyFormatDid "http://r/\x7bdid\x7d" "did:ex:1")))) :=
  resolve_did_status_gate "did:ex:1" "http://r/\x7bdid\x7d"
    (fun _ => Except.ok ⟨200, Except.ok (Json.obj [("didDocument", Json.str "d")])⟩)
    200 [("didDocument", Json.str "d")] (Json.str "d") rfl rfl

/-- Claim C9: for every HTTP response with status outside [200, 400), the
`HandlerException` raised by `resolve_did` carries a message ending in the
literal text `\x7bresponse.status\x7d` — the numeric status is never
interpolated, because only the first line of the message is an f-string;
the message is the same for every out-of-range status. -/
theorem status_error_literal (did template : String)
    (http : String → Except PyErr HttpResponse)
    (status : Nat) (body : Except PyErr Json)
    (hresp : http (pyFormatDid template did) = Except.ok ⟨status, body⟩)
    (hstatus : status < 200 ∨ 400 ≤ status) :
    ResolveDID.resolve_did did template http
      = Except.error (PyErr.handlerException
          (statusErrMsg did (pyFormatDid template did)))
    ∧ ∃ pre, statusErrMsg did (pyFormatDid template did)
        = pre ++ "\x7bresponse.status\x7d" := by
  constructor
  · unfold ResolveDID.resolve_did
    simp only [hresp]
    have hst : ¬ (200 ≤ status ∧ status < 400) := by omega
    simp [if_neg hst]
  · exact ⟨"Failed to resolve DID " ++ did ++ " using URL "
      ++ pyFormatDid template did ++ " with status ", rfl⟩

/-- Witness for C9: a concrete 404 response; the raised message ends in the
literal placeholder text. -/
theorem status_error_literal_witness :
    ResolveDID.resolve_did "did:ex:2" "http://r/\x7bdid\x7d"
        (fun _ => Except.ok ⟨404, Except.ok Json.null⟩)
      = Except.error (PyErr.handlerException
          (statusErrMsg "did:ex:2" (pyFormatDid "http://r/\x7bdid\x7d" "did:ex:2")))
    ∧ ∃ pre, statusErrMsg "did:ex:2" (pyFormatDid "http://r/\x7bdid\x7d" "did:ex:2")
        = pre ++ "\x7bresponse.status\x7d" :=
  status_error_literal "did:ex:2" "http://r/\x7bdid\x7d"
    (fun _ => Except.ok ⟨404, Except.ok Json.null⟩) 404 (Except.ok Json.null)
    rfl (by omega)

/-- A concrete JSON decoder stub used in concrete evaluations: it accepts
every string and yields the empty object. -/
def loadsOkEmpty : String → Except PyErr Json := fun _ => Except.ok (Json.obj [])

/-- Claim C4 counterexample: a received `ResolveDIDResult` whose
`did_document` holds a dict (the very type its schema declares) makes the
handler raise a `TypeError` and emit no notification event at all — so the
notification is not emitted for every received result. -/
theorem result_handler_counterexample :
    ResolveDIDResult.handle_with_waiter (fun _ => Except.error PyErr.valueError)
        ⟨"conn-1", "msg-1", PyVal.pyDict []⟩ true
      = (Except.error PyErr.typeError, true) := rfl

/-- Claim C4 (amended): for every received `ResolveDIDResult` whose
`did_document` is a string that the JSON decoder parses, the handler emits
exactly one notification event carrying the parsed DID document and the
message metadata, independent of whether a waiter existed for the
correlation id; when `did_document` is a dict or fails to parse, an
exception is raised and no event is emitted. -/
theorem result_handler_one_webhook (loads : String → Except PyErr Json)
    (ctx : ResultContext) (s : String) (doc : Json) (w1 w2 : Bool)
    (hs : ctx.did_document = PyVal.pyStr s)
    (hdoc : loads s = Except.ok doc) :
    ResolveDIDResult.handle_with_waiter loads ctx w1
      = (Except.ok [{ topic := "resolve_did_result"
                      connection_id := ctx.connection_id
                      message_id := ctx.message_id
                      did_document := doc
                      state := "received" }], w1)
    ∧ (ResolveDIDResult.handle_with_waiter loads ctx w1).1
        = (ResolveDIDResult.handle_with_waiter loads ctx w2).1 := by
  constructor
  · simp only [ResolveDIDResult.handle_with_waiter, ResolveDIDResult.do_handle,
      hs, json_loads, hdoc]
  · rfl

/-- Witness for C4: a concrete string-valued document parsed by the stub
decoder, yielding exactly one webhook whatever the waiter flag. -/
theorem result_handler_one_webhook_witness :
    ResolveDIDResult.handle_with_waiter loadsOkEmpty
        ⟨"c1", "m1", PyVal.pyStr "\x7b\x7d"⟩ true
      = (Except.ok [{ topic := "resolve_did_result"
                      connection_id := "c1"
                      message_id := "m1"
                      did_document := Json.obj []
                      state := "received" }], true)
    ∧ (ResolveDIDResult.handle_with_waiter loadsOkEmpty
          ⟨"c1", "m1", PyVal.pyStr "\x7b\x7d"⟩ true).1
        = (ResolveDIDResult.handle_with_waiter loadsOkEmpty
            ⟨"c1", "m1", PyVal.pyStr "\x7b\x7d"⟩ false).1 :=
  result_handler_one_webhook loadsOkEmpty ⟨"c1", "m1", PyVal.pyStr "\x7b\x7d"⟩
    "\x7b\x7d" (Json.obj []) true false rfl rfl

/-- Claim C7 counterexample: the `problem-report` message type is not
among the keys of `MESSAGE_TYPES` — only `resolve` and `resolve_result`
are registered. -/
theorem message_types_counterexample :
    (MESSAGE_TYPES.map Prod.fst).contains MessageKind.problem_report.message_type
      = false := by decide

/-- Claim C7 (amended): all three message kinds carry the same shared
protocol identifier (`DIDResolutionMessage.protocol`), and the dispatch
table `MESSAGE_TYPES` registers the `resolve` and `resolve_result` kinds
but not the `problem-report` kind. -/
theorem protocol_shared_two_kinds_registered :
    (∀ k : MessageKind, k.protocol = DIDResolutionMessage.protocol)
    ∧ MESSAGE_TYPES.map Prod.fst
        = [MessageKind.resolve.message_type,
           MessageKind.resolve_result.message_type]
    ∧ (MESSAGE_TYPES.map Prod.fst).contains
        MessageKind.problem_report.message_type = false :=
  ⟨fun _ => rfl, rfl, by decide⟩

/-- Claim C8: for every received `ResolveDIDResult` whose `did_document`
field holds a dict (the type its schema declares), `do_handle` raises a
`TypeError` at the `json.loads` call before `send_webhook` is reached, and
in general a webhook is emitted only when `did_document` is a string. -/
theorem do_handle_dict_type_error (loads : String → Except PyErr Json)
    (c m : String) (kvs : List (String × Json)) :
    ResolveDIDResult.do_handle loads ⟨c, m, PyVal.pyDict kvs⟩
        = Except.error PyErr.typeError
    ∧ (∀ ctx : ResultContext, ∀ hooks : List Webhook,
        ResolveDIDResult.do_handle loads ctx = Except.ok hooks →
        ∃ s, ctx.did_document = PyVal.pyStr s) := by
  constructor
  · rfl
  · intro ctx hooks h
    rcases ctx with ⟨cc, mm, dd⟩
    cases dd with
    | pyStr s => exact ⟨s, rfl⟩
    | pyDict kvs2 =>
      simp only [ResolveDIDResult.do_handle, json_loads] at h
      exact absurd h (by simp)

/-- Witness for C8: a concrete dict-valued document raising `TypeError`
with no webhook, and a concrete string-valued document reaching the
webhook. -/
theorem do_handle_dict_type_error_witness :
    ResolveDIDResult.do_handle loadsOkEmpty ⟨"c1", "m1", PyVal.pyDict []⟩
        = Except.error PyErr.typeError
    ∧ (∃ s, (⟨"c1", "m1", PyVal.pyStr "\x7b\x7d"⟩ : ResultContext).did_document
        = PyVal.pyStr s) :=
  ⟨(do_handle_dict_type_error loadsOkEmpty "c1" "m1" []).1,
   (do_handle_dict_type_error loadsOkEmpty "c1" "m1" []).2
     ⟨"c1", "m1", PyVal.pyStr "\x7b\x7d"⟩
     [{ topic := "resolve_did_result", connection_id := "c1", message_id := "m1",
        did_document := Json.obj [], state := "received" }] rfl⟩

/-- A concrete datetime used in concrete evaluations. -/
def dt2020 : PyDatetime := ⟨2020, 1, 2, 3, 4, 5⟩

/-- Claim C10: every constructed `ResolveDID` and `ResolveDIDResult`
message stores a non-empty string `sent_time`; a falsy argument (`None` or
the empty string) defaults to the current time, a supplied datetime is
converted to its string form, and the two constructors agree. -/
theorem init_sent_time_nonempty (now : PyDatetime) (arg : SentTimeArg) :
    0 < ((ResolveDID.init_sent_time now arg).asStr).length
    ∧ (∃ s, ResolveDID.init_sent_time now arg = SentTimeArg.strArg s)
    ∧ ResolveDIDResult.init_sent_time now arg = ResolveDID.init_sent_time now arg
    ∧ (sentTimeFalsy arg = true →
        ResolveDID.init_sent_time now arg = SentTimeArg.strArg now.isoStr)
    ∧ (∀ d : PyDatetime, arg = SentTimeArg.dtArg d →
        ResolveDID.init_sent_time now arg = SentTimeArg.strArg d.isoStr) := by
  have hiso := isoStr_length_pos now
  cases arg with
  | noneArg =>
    refine ⟨?_, ⟨now.isoStr, rfl⟩, rfl, fun _ => rfl, fun d hd => by cases hd⟩
    simpa [ResolveDID.init_sent_time, sentTimeFalsy, datetime_to_str,
      SentTimeArg.asStr] using hiso
  | strArg s =>
    by_cases hs : s = ""
    · subst hs
      refine ⟨?_, ⟨now.isoStr, rfl⟩, rfl, fun _ => rfl, fun d hd => by cases hd⟩
      simpa [ResolveDID.init_sent_time, sentTimeFalsy, datetime_to_str,
        SentTimeArg.asStr] using hiso
    · have hlen := length_pos_of_ne_empty s hs
      have hfalsy : sentTimeFalsy (SentTimeArg.strArg s) = false := by
        simp [sentTimeFalsy, hs]
      refine ⟨?_, ⟨s, ?_⟩, ?_, fun hcon => ?_, fun d hd => by cases hd⟩
      · simpa [ResolveDID.init_sent_time, hfalsy, datetime_to_str,
          SentTimeArg.asStr] using hlen
      · simp [ResolveDID.init_sent_time, hfalsy, datetime_to_str]
      · simp [ResolveDID.init_sent_time, ResolveDIDResult.init_sent_time]
      · rw [hfalsy] at hcon
        cases hcon
  | dtArg d =>
    refine ⟨?_, ⟨d.isoStr, rfl⟩, rfl, ?_, ?_⟩
    · simpa [ResolveDID.init_sent_time, sentTimeFalsy, datetime_to_str,
        SentTimeArg.asStr] using isoStr_length_pos d
    · intro hcon
      simp [sentTimeFalsy] at hcon
    · intro e he
      injection he with h1
      subst h1
      rfl

/-- Witness for C10: constructing with no `sent_time` stores the rendered
current time, a non-empty string. -/
theorem init_sent_time_nonempty_witness :
    0 < ((ResolveDID.init_sent_time dt2020 SentTimeArg.noneArg).asStr).length
    ∧ ResolveDID.init_sent_time dt2020 SentTimeArg.noneArg
        = SentTimeArg.strArg dt2020.isoStr :=
  ⟨(init_sent_time_nonempty dt2020 SentTimeArg.noneArg).1,
   (init_sent_time_nonempty dt2020 SentTimeArg.noneArg).2.2.2.1 rfl⟩

/-- Claim C3 (modelled from the spec): when no reply correlated to the
call's id arrives before the deadline `now + timeout`, `resolveDID` wakes
with `RequestTimeout` — the model's `await` is a total function of the
deadline, so the call cannot stay blocked past it — and the pending entry
for the id is no longer in the table afterward. -/
theorem resolveDID_timeout (table : PendingTable) (cid : String)
    (now timeout : Nat) (replies : List TimedReply)
    (h : ∀ r ∈ replies, r.cid = cid → now + timeout ≤ r.arriveAt) :
    (resolveDIDCall table cid now timeout replies).1
        = Except.error ResolverError.requestTimeout
    ∧ tableLookup (resolveDIDCall table cid now timeout replies).2 cid = none := by
  constructor
  · have hnone : firstReplyBefore replies cid (now + timeout) = none := by
      apply List.find?_eq_none.mpr
      intro r hr
      simp only [Bool.and_eq_true, beq_iff_eq, decide_eq_true_eq, not_and]
      intro hcid hlt
      exact absurd hlt (Nat.not_lt.mpr (h r hr hcid))
    simp only [resolveDIDCall, awaitEntry, hnone]
  · have hall : ∀ e ∈ (registerEntry table cid (now + timeout)).filter
        (fun e => e.1 != cid), ¬ ((fun e => e.1 == cid) e = true) := by
      intro e he
      have hne := (List.mem_filter.mp he).2
      simpa using hne
    simp only [resolveDIDCall, awaitEntry, tableLookup, removeEntry,
      List.find?_eq_none.mpr hall]
    rfl

/-- Witness for C3: a concrete call whose only correlated reply arrives
after the deadline times out and leaves no entry behind. -/
theorem resolveDID_timeout_witness :
    (resolveDIDCall [] "cid-1" 0 5
        [⟨"cid-2", 1, ReplyKind.result Json.null⟩,
         ⟨"cid-1", 9, ReplyKind.result Json.null⟩]).1
      = Except.error ResolverError.requestTimeout
    ∧ tableLookup (resolveDIDCall [] "cid-1" 0 5
        [⟨"cid-2", 1, ReplyKind.result Json.null⟩,
         ⟨"cid-1", 9, ReplyKind.result Json.null⟩]).2 "cid-1" = none :=
  resolveDID_timeout [] "cid-1" 0 5
    [⟨"cid-2", 1, ReplyKind.result Json.null⟩,
     ⟨"cid-1", 9, ReplyKind.result Json.null⟩]
    (by decide)
